import Mathlib

/-!
Shallow embedding of `src/main.py`, a Wikipedia crawl-and-extract script:
URL classifier (`is_valid_article`), content extractor
(`extract_article_content`), link collector (`get_all_links`), crawl
controller (`scrape_all_links_and_content` with inner `crawl`), and report
writer (`save_results_to_txt`).  The network is modelled as a pure function
from URL to a fetch outcome (an exception, or a status code plus a parsed
document); parsed documents are modelled at the granularity the script
inspects them (first heading, content-div children, anchor hrefs).
-/

/-- Python's `str.startswith` / the regex anchor `^`: the pattern occurs
at the start of the string.  (Carried out on the character lists so that
concrete instances evaluate by reduction.) -/
def strStartsWith (pat s : String) : Bool :=
  pat.data.isPrefixOf s.data

/-- Python's `str.strip()`: drop leading and trailing whitespace. -/
def pyStrip (s : String) : String :=
  ⟨((s.data.dropWhile Char.isWhitespace).reverse.dropWhile
      Char.isWhitespace).reverse⟩

/-- A substring search for a literal (metacharacter-free) pattern,
modelling Python's `re.search(pattern, url)`: all ten patterns in
`exclude_patterns` are literal strings, so `re.search` is exactly
"the pattern occurs somewhere in the url". -/
def searchAux (pat : List Char) : List Char → Bool
  | [] => pat.isPrefixOf ([] : List Char)
  | c :: rest => pat.isPrefixOf (c :: rest) || searchAux pat rest

/-- `re.search(pat, s)` for a literal pattern `pat`. -/
def reSearch (pat s : String) : Bool :=
  searchAux pat.data s.data

/-- The `exclude_patterns` list of `is_valid_article` (src/main.py lines
18-29), in source order. -/
def exclude_patterns : List String :=
  ["/wiki/Special:", "/wiki/Help:", "/wiki/Wikipedia:", "/wiki/Portal:",
   "/wiki/Category:", "/wiki/Template:", "/wiki/File:", "/wiki/Talk:",
   "/wiki/User:", "/wiki/Main_Page"]

/-- `is_valid_article(url)` (src/main.py lines 7-36): returns False as
soon as `re.search(pattern, url)` succeeds for one of the exclude
patterns, True otherwise. -/
def is_valid_article (url : String) : Bool :=
  ! exclude_patterns.any (fun pat => reSearch pat url)

/-- Modelled from the spec's words, for comparison with the code's
`is_valid_article`: the claim reads the exclusions as the nine fixed
namespace PREFIXES (`Special:` ... `User:` right after `/wiki/`) "or the
main page" itself.  So: False iff the href starts with one of the nine
namespace prefixes or equals `/wiki/Main_Page`; True otherwise. -/
def spec_is_article (href : String) : Bool :=
  ! ((["/wiki/Special:", "/wiki/Help:", "/wiki/Wikipedia:", "/wiki/Portal:",
      "/wiki/Category:", "/wiki/Template:", "/wiki/File:", "/wiki/Talk:",
      "/wiki/User:"].any (fun pat => strStartsWith pat href))
     || href == "/wiki/Main_Page")

/-- One element node of the parsed content div, at the granularity the
script inspects it via BeautifulSoup.  `h` is any of `h1`-`h6` (the
script treats all six levels identically); `p` carries
`get_text(strip=True)` of a paragraph; `ul` carries the
`get_text(strip=True)` of its `li` items; `skip` is a
script/style/table/figure container; `other` is any other element with
its element children. -/
inductive Node where
  | h (text : String)
  | p (text : String)
  | ul (items : List String)
  | skip
  | other (children : List Node)

mutual

/-- `extract_text(element)` (src/main.py lines 74-85): scripts, styles,
tables and figures contribute nothing; paragraphs their stripped text;
lists their items joined by newlines, each prefixed with a dash marker;
headings their text wrapped in newlines; any other element the
concatenation of its element children's extracted text. -/
def extract_text : Node → String
  | .skip => ""
  | .p t => t
  | .ul items => String.intercalate "\n" (items.map (fun li => "- " ++ li))
  | .h t => "\n" ++ t ++ "\n"
  | .other cs => String.join (extract_text_list cs)

/-- The per-child recursion of `extract_text` over an element's children
(the list comprehension on src/main.py line 85). -/
def extract_text_list : List Node → List String
  | [] => []
  | c :: cs => extract_text c :: extract_text_list cs

end

/-- One section of an extracted article: the dict
`{'heading': ..., 'content': [...]}` pushed on src/main.py line 92. -/
structure Section where
  heading : String
  content : List String
deriving DecidableEq, Repr

/-- One extracted article: the dict returned on src/main.py lines
110-114 (`'content'` is the list of sections). -/
structure Article where
  url : String
  title : String
  content : List Section
deriving DecidableEq, Repr

/-- The loop over `content_div.children` (src/main.py lines 88-104),
carried out on the current heading, the accumulated paragraphs of the
current section, and the sections built so far.  A heading pushes the
current section only when it has accumulated content, then opens a new
section; any other element contributes its extracted text as one
paragraph entry when non-empty after stripping.  The final open section
is pushed only when it has content. -/
def build_go : List Node → String → List String → List Section → List Section
  | [], curHead, curContent, content =>
    if curContent.isEmpty then content else content ++ [⟨curHead, curContent⟩]
  | el :: rest, curHead, curContent, content =>
    match el with
    | .h t =>
      build_go rest t []
        (if curContent.isEmpty then content else content ++ [⟨curHead, curContent⟩])
    | _ =>
      let text := extract_text el
      build_go rest curHead
        (if pyStrip text == "" then curContent else curContent ++ [text]) content

/-- The parsed document, at the granularity the script inspects it:
the stripped text of `h1#firstHeading` when present, the element
children of `div.mw-parser-output` when present, and the hrefs of all
anchors in document order. -/
structure Page where
  firstHeading : Option String
  contentDiv : Option (List Node)
  anchors : List String

/-- Outcome of one `requests.get(url)`: either an exception raised
during the fetch (timeout, connection error, ...) with its message, or a
response with an HTTP status code and a parsed body.  `requests.get`
does not raise on a non-2xx status; the status travels with the
response. -/
inductive FetchOutcome where
  | err (msg : String)
  | ok (status : Nat) (page : Page)

/-- The network: what one fetch of each URL returns.  The script fetches
the same URL from both `extract_article_content` and `get_all_links`;
a pure function gives both fetches the same outcome. -/
def Net : Type := String → FetchOutcome

/-- `extract_article_content(url)` (src/main.py lines 38-118) on a given
fetch outcome.  Returns the optional article together with the list of
diagnostics printed by the `except` handler.  An exception anywhere in
the body is caught: it prints a diagnostic and yields None.  On a
response, the status code is never inspected; the title falls back to
`'No Title'` when `h1#firstHeading` is missing; a missing
`div.mw-parser-output` yields None, as does an empty section list.
(The `time.sleep(0.5)` throttle and the `prettify()` debug print have no
bearing on the result and are not modelled.) -/
def extract_article_content (url : String) (f : FetchOutcome) :
    Option Article × List String :=
  match f with
  | .err e => (none, ["Error extracting content from " ++ url ++ ": " ++ e])
  | .ok _status page =>
    let title := match page.firstHeading with
      | some t => pyStrip t
      | none => "No Title"
    match page.contentDiv with
    | none => (none, [])
    | some children =>
      let content := build_go children title [] []
      if content.isEmpty then (none, [])
      else (some ⟨url, title, content⟩, [])

/-- `get_all_links(url)` (src/main.py lines 120-147) on a given fetch
outcome: on an exception it logs and returns the empty list; otherwise
it keeps the hrefs matching `^/wiki/`, filters them through
`is_valid_article`, and maps each survivor to an absolute URL by
prefixing the site origin.  The source builds and returns a Python
LIST (one entry per matching anchor, in document order). -/
def get_all_links (url : String) (f : FetchOutcome) : List String :=
  match f with
  | .err _ => []
  | .ok _status page =>
    (page.anchors.filter
        (fun href => strStartsWith "/wiki/" href && is_valid_article href)).map
      (fun href => "https://zh.wikipedia.org" ++ href)

/-- The mutable state captured by the nested `crawl` of
`scrape_all_links_and_content`: the `visited` set (modelled as the list
of URLs in visit order) and the `results` dict (modelled as the
association list in insertion order).  `log` is pure instrumentation for
the specification: it records alongside each visited URL the recursion
depth at which it was marked visited, extracted and link-collected; the
source keeps no such record and no behaviour depends on it. -/
structure CrawlState where
  visited : List String
  results : List (String × Article)
  log : List (String × Nat)

/-- The body of one `crawl(current_url, current_depth)` visit after the
guard has passed (src/main.py lines 171-177): mark the URL visited (the
depth is recorded in the instrumentation log), then extract its content
and, on success, insert the article into the results under this URL. -/
def crawl_step (net : Net) (url : String) (d : Nat) (st : CrawlState) :
    CrawlState :=
  let st1 : CrawlState :=
    ⟨st.visited ++ [url], st.results, st.log ++ [(url, d)]⟩
  match (extract_article_content url (net url)).1 with
  | some a => { st1 with results := st1.results ++ [(url, a)] }
  | none => st1

/-- The nested recursive `crawl(current_url, current_depth)` of
`scrape_all_links_and_content` (src/main.py lines 164-186).  `fuel` is a
termination token only: the top-level call supplies `depth + 1`, and
every recursive call decrements it while incrementing `d`, so
`fuel = 0` can only be reached when `d > depth` and the depth guard
would return anyway — the `| 0 => st` branch never changes the result.
The three-way guard (`len(results) >= max_urls or current_depth > depth
or current_url in visited`) and the per-link condition (`link not in
visited and len(results) < max_urls`) follow the source; the loop over
the collected links is the `foldl`. -/
def crawl (net : Net) (max_urls depth : Nat) :
    Nat → Nat → String → CrawlState → CrawlState
  | 0, _, _, st => st
  | fuel + 1, d, url, st =>
    if max_urls ≤ st.results.length || depth < d || st.visited.contains url
    then st
    else
      (get_all_links url (net url)).foldl
        (fun acc link =>
          if !acc.visited.contains link && acc.results.length < max_urls
          then crawl net max_urls depth fuel (d + 1) link acc
          else acc)
        (crawl_step net url d st)

/-- `scrape_all_links_and_content(start_url, depth, max_urls)`
(src/main.py lines 149-189): run `crawl(start_url, 0)` from the empty
visited set and empty results.  The source returns `results`; the full
final state is kept here so that the visited set and the
instrumentation log can be spoken about as well. -/
def scrape_all_links_and_content (net : Net) (start_url : String)
    (depth max_urls : Nat) : CrawlState :=
  crawl net max_urls depth (depth + 1) 0 start_url ⟨[], [], []⟩

/-- What one call of `save_results_to_txt(data, filename)`
(src/main.py lines 191-225) emits: the payloads of the `file.write`
calls, grouped per article (one group per iteration of the loop over
`data.items()`), the final `print`, and the Python return value of the
function (it has no `return` statement, so it returns `None`).  The
`os.makedirs` directory handling touches only the filesystem and is not
modelled. -/
structure SaveOutput where
  chunks : List (List String)
  printed : String
  returned : Option Nat

/-- The `file.write` payloads for one `(url, article)` entry
(src/main.py lines 207-223), in order: URL line, title line, content
marker, then per section its indented heading, its further-indented
paragraphs and a blank line, then the separator (a newline, 50 copies
of the equals sign — code point 61 — and two newlines). -/
def article_writes (url : String) (article : Article) : List String :=
  ["URL: " ++ url ++ "\n", "Title: " ++ article.title ++ "\n", "Content:\n"]
  ++ article.content.flatMap
      (fun s =>
        ["  " ++ s.heading ++ "\n"]
        ++ s.content.map (fun par => "    " ++ par ++ "\n")
        ++ ["\n"])
  ++ ["\n" ++ String.mk (List.replicate 50 (Char.ofNat 61)) ++ "\n\n"]

/-- `save_results_to_txt(data, filename)` (src/main.py lines 191-225). -/
def save_results_to_txt (data : List (String × Article))
    (filename : String) : SaveOutput :=
  { chunks := data.map (fun e => article_writes e.1 e.2)
    printed :=
      "Saved " ++ toString data.length ++ " articles to " ++ filename
    returned := none }

/-- A concrete page: a standard article render with one heading and one
paragraph and no outbound anchors. -/
def pageW : Page := ⟨some "T", some [.h "H", .p "x"], []⟩

/-- A network on which every URL serves `pageW` with status 200. -/
def netW : Net := fun _ => .ok 200 pageW

/-- The article the extractor produces for `pageW` fetched at URL
`"u"`. -/
def artW : Article := ⟨"u", "T", [⟨"H", ["x"]⟩]⟩

/-- `searchAux pat l` decides exactly whether `pat` occurs somewhere in
`l` as a contiguous run, i.e. `re.search` for a literal pattern. -/
theorem searchAux_iff (pat : List Char) :
    ∀ l, searchAux pat l = true ↔ pat <:+: l := by
  intro l
  induction l with
  | nil => simp [searchAux, List.isPrefixOf_iff_prefix]
  | cons c rest ih =>
    simp only [searchAux, Bool.or_eq_true, List.isPrefixOf_iff_prefix, ih,
      List.infix_cons_iff]

/-- `reSearch pat s` decides whether the literal pattern `pat` occurs in
`s` as a substring. -/
theorem reSearch_iff (pat s : String) :
    reSearch pat s = true ↔ pat.data <:+: s.data :=
  searchAux_iff pat.data s.data

/-- A property of the accumulator is preserved through a left fold as
soon as each step preserves it. -/
theorem foldl_preserve {α β : Type} (P : β → Prop) (f : β → α → β)
    (hf : ∀ b a, P b → P (f b a)) :
    ∀ (l : List α) (b : β), P b → P (l.foldl f b) := by
  intro l
  induction l with
  | nil => intro b hb; exact hb
  | cons a t ih => intro b hb; exact ih (f b a) (hf b a hb)

/-- Master invariant lemma for the crawl: any state property that is
preserved by `crawl_step` — under the facts the guard guarantees at
that point (the result count is still below `max_urls` and the current
depth is within `depth`) — is preserved by the whole recursive crawl. -/
theorem crawl_preserve (net : Net) (max_urls depth : Nat)
    (P : CrawlState → Prop)
    (hstep : ∀ st url d, st.results.length < max_urls → d ≤ depth →
      P st → P (crawl_step net url d st)) :
    ∀ fuel d url st, P st → P (crawl net max_urls depth fuel d url st) := by
  intro fuel
  induction fuel with
  | zero => intro d url st h; exact h
  | succ f ih =>
    intro d url st h
    rw [crawl]
    split
    · exact h
    · rename_i hguard
      simp only [Bool.or_eq_true, decide_eq_true_eq, not_or] at hguard
      refine foldl_preserve P _ (fun acc link hacc => ?_) _ _
        (hstep st url d (Nat.lt_of_not_le hguard.1.1) (Nat.le_of_not_lt hguard.1.2) h)
      split
      · exact ih (d + 1) link acc hacc
      · exact hacc

/-- If extraction yields an article, its `url` field is the URL it was
asked to extract (src/main.py line 111). -/
theorem extract_url_eq (url : String) (f : FetchOutcome) (a : Article)
    (h : (extract_article_content url f).1 = some a) : a.url = url := by
  cases f with
  | err e => simp [extract_article_content] at h
  | ok status page =>
    cases hcd : page.contentDiv with
    | none => simp [extract_article_content, hcd] at h
    | some children =>
      simp only [extract_article_content, hcd] at h
      split at h
      · simp at h
      · simp only [Option.some.injEq] at h
        subst h
        rfl

/-- C1: the URL classifier rejects an href as soon as one of the ten
excluded pattern strings occurs ANYWHERE in it (`re.search`), not only
when the href starts with a namespace prefix or is the main page; the
href `/wiki/Main_Pages` is neither namespace-prefixed nor the main
page, so the claim predicts `true`, but `is_valid_article` returns
`false` because `/wiki/Main_Page` occurs in it as a substring. -/
theorem c1_counterexample :
    spec_is_article "/wiki/Main_Pages" = true ∧
    is_valid_article "/wiki/Main_Pages" = false := by decide

/-- C1 (amended): `is_valid_article` returns `false` exactly when one of
the ten excluded pattern strings occurs in the href as a substring
(anywhere, per `re.search`), and `true` otherwise; the three cited
examples behave as claimed. -/
theorem c1_classifier_substring :
    (∀ url, is_valid_article url = false ↔
      ∃ pat ∈ exclude_patterns, pat.data <:+: url.data) ∧
    is_valid_article "/wiki/Special:Search" = false ∧
    is_valid_article "/wiki/Music" = true ∧
    is_valid_article "/wiki/Talk:Music" = false := by
  refine ⟨fun url => ?_, by decide, by decide, by decide⟩
  simp only [is_valid_article, Bool.not_eq_false', List.any_eq_true,
    reSearch_iff]

/-- C4: for every network behaviour, seed URL, depth bound and article
bound, the crawl's final result mapping has at most `max_urls`
entries. -/
theorem c4_results_bounded (net : Net) (start_url : String)
    (depth max_urls : Nat) :
    (scrape_all_links_and_content net start_url depth max_urls).results.length
      ≤ max_urls := by
  refine crawl_preserve net max_urls depth
    (fun st => st.results.length ≤ max_urls) ?_ (depth + 1) 0 start_url
    ⟨[], [], []⟩ (Nat.zero_le max_urls)
  intro st url d hlen _ _
  unfold crawl_step
  cases hext : (extract_article_content url (net url)).1 with
  | none => simpa using Nat.le_of_lt hlen
  | some a => simpa using hlen

/-- C7: every URL visit the crawl performs — marking visited, extracting
and link-collecting all happen in the same `crawl` body, at the same
recursion depth — occurs at a depth of at most `depth` (the seed is at
depth 0). -/
theorem c7_depth_bounded (net : Net) (start_url : String)
    (depth max_urls : Nat) :
    ∀ p ∈ (scrape_all_links_and_content net start_url depth max_urls).log,
      p.2 ≤ depth := by
  refine crawl_preserve net max_urls depth
    (fun st => ∀ p ∈ st.log, p.2 ≤ depth) ?_ (depth + 1) 0 start_url
    ⟨[], [], []⟩ (by simp)
  intro st url d _ hd hinv p hp
  unfold crawl_step at hp
  cases hext : (extract_article_content url (net url)).1 <;>
    simp only [hext, List.mem_append, List.mem_singleton] at hp <;>
    rcases hp with hp | hp
  · exact hinv p hp
  · subst hp; exact hd
  · exact hinv p hp
  · subst hp; exact hd

/-- C7 witness: on the one-page network, the seed is visited at depth 0,
within the bound `depth = 0`. -/
theorem c7_witness :
    ("u", 0) ∈ (scrape_all_links_and_content netW "u" 0 1).log ∧
    (("u", 0) : String × Nat).2 ≤ 0 :=
  ⟨by decide, c7_depth_bounded netW "u" 0 1 ("u", 0) (by decide)⟩

/-- C10: every entry of the crawl's result mapping stores an article
whose `url` field is the key it is stored under. -/
theorem c10_result_key_is_url (net : Net) (start_url : String)
    (depth max_urls : Nat) :
    ∀ u a,
      (u, a) ∈ (scrape_all_links_and_content net start_url depth max_urls).results →
      a.url = u := by
  have main := crawl_preserve net max_urls depth
    (fun st => ∀ p ∈ st.results, p.2.url = p.1) ?_ (depth + 1) 0 start_url
    ⟨[], [], []⟩ (by simp)
  · intro u a hmem
    exact main ((u, a) : String × Article) hmem
  · intro st url d _ _ hinv p hp
    unfold crawl_step at hp
    cases hext : (extract_article_content url (net url)).1 with
    | none => simp only [hext] at hp; exact hinv p hp
    | some a =>
      simp only [hext, List.mem_append, List.mem_singleton] at hp
      rcases hp with hp | hp
      · exact hinv p hp
      · subst hp
        exact extract_url_eq url (net url) a hext

/-- C10 witness: on the one-page network, the article stored under the
seed URL carries that URL. -/
theorem c10_witness :
    ("u", artW) ∈ (scrape_all_links_and_content netW "u" 0 1).results ∧
    artW.url = "u" :=
  ⟨by decide, c10_result_key_is_url netW "u" 0 1 "u" artW (by decide)⟩

/-- A synthetic document with exactly two heading elements and exactly
one paragraph between them, as in the C2 claim. -/
def pageC2 : Page := ⟨some "T", some [.h "A", .p "x", .h "B"], []⟩

/-- C2: on a content container holding exactly two headings with one
paragraph between them, the extractor produces exactly ONE section (the
first heading with its paragraph), not two — a heading terminating the
current section pushes it only when it has accumulated content, so the
second, empty section is never emitted. -/
theorem c2_counterexample :
    (extract_article_content "u" (.ok 200 pageC2)).1 ≠ none ∧
    (extract_article_content "u" (.ok 200 pageC2)).1.map
        (fun a => a.content.length) = some 1 := by decide

/-- C2 (amended): on a document whose content container is exactly
heading/paragraph/heading with a paragraph that is non-empty after
stripping, the extractor produces exactly one section, headed by the
first heading and containing that paragraph; no empty second section
appears. -/
theorem c2_single_section (url t h1 h2 ptxt : String)
    (anchors : List String) (status : Nat) (hp : ¬ pyStrip ptxt = "") :
    (extract_article_content url
        (.ok status ⟨some t, some [.h h1, .p ptxt, .h h2], anchors⟩)).1
      = some ⟨url, pyStrip t, [⟨h1, [ptxt]⟩]⟩ := by
  simp [extract_article_content, build_go, extract_text, hp]

/-- C2 witness: the amended statement at the concrete synthetic
document `pageC2`. -/
theorem c2_witness :
    ¬ pyStrip "x" = "" ∧
    (extract_article_content "u"
        (FetchOutcome.ok 200 ⟨some "T", some [.h "A", .p "x", .h "B"], []⟩)).1
      = some ⟨"u", pyStrip "T", [⟨"A", ["x"]⟩]⟩ :=
  ⟨by decide, c2_single_section "u" "T" "A" "B" "x" [] 200 (by decide)⟩

/-- C3: a non-2xx HTTP response is NOT treated as a transport failure:
`requests.get` does not raise on it and the status code is never
inspected, so a 404 response whose body happens to carry a standard
article render yields a non-null article and no diagnostic, where the
claim requires null plus a diagnostic. -/
theorem c3_counterexample :
    (extract_article_content "u" (.ok 404 pageW)).1 ≠ none ∧
    (extract_article_content "u" (.ok 404 pageW)).2 = [] := by decide

/-- C3 (amended): on a fetch that raises (timeout, connection error),
the extractor returns null and records the diagnostic the `except`
handler prints, and nothing escapes the boundary; a non-2xx response is
not detected — its body is parsed like any other response. -/
theorem c3_exception_gives_null (url e : String) :
    extract_article_content url (.err e)
      = (none, ["Error extracting content from " ++ url ++ ": " ++ e]) :=
  rfl

/-- A page containing two anchors with the same qualifying href. -/
def pageC5 : Page := ⟨none, none, ["/wiki/Music", "/wiki/Music"]⟩

/-- C5: `get_all_links` builds a Python LIST, not a set: a page with two
anchors carrying the same qualifying href yields that absolute URL
twice, so duplicates do not collapse. -/
theorem c5_counterexample :
    (get_all_links "u" (.ok 200 pageC5)).count
        "https://zh.wikipedia.org/wiki/Music" = 2 ∧
    ¬ (get_all_links "u" (.ok 200 pageC5)).Nodup := by decide

/-- Prefixing a fixed string is injective. -/
theorem string_append_left_injective (base : String) :
    Function.Injective (fun s => base ++ s) := by
  intro a b h
  have h2 := congrArg String.data h
  simp only [String.data_append] at h2
  exact String.ext (List.append_cancel_left h2)

/-- C5 (amended): `get_all_links` returns a list with one entry per
qualifying anchor, in document order, and duplicates are preserved: for
a qualifying href, the multiplicity of its absolute URL in the output
equals the multiplicity of the href among the page's anchors. -/
theorem c5_duplicates_preserved (url : String) (status : Nat)
    (page : Page) (href : String)
    (h1 : strStartsWith "/wiki/" href = true)
    (h2 : is_valid_article href = true) :
    (get_all_links url (.ok status page)).count
        ("https://zh.wikipedia.org" ++ href)
      = page.anchors.count href := by
  unfold get_all_links
  rw [List.count_map_of_injective _ _
    (string_append_left_injective "https://zh.wikipedia.org") href]
  rw [List.count_filter]
  simp [h1, h2]

/-- C5 witness: the amended multiplicity statement at the concrete
duplicate-anchor page. -/
theorem c5_witness :
    strStartsWith "/wiki/" "/wiki/Music" = true ∧
    is_valid_article "/wiki/Music" = true ∧
    (get_all_links "u" (.ok 200 pageC5)).count
        ("https://zh.wikipedia.org" ++ "/wiki/Music")
      = pageC5.anchors.count "/wiki/Music" :=
  ⟨by decide, by decide,
    c5_duplicates_preserved "u" 200 pageC5 "/wiki/Music" (by decide) (by decide)⟩

/-- A fetched page with no `h1#firstHeading` but a standard content
container. -/
def pageC6 : Page := ⟨none, some [.p "x"], []⟩

/-- A fetched page with a title but no content container. -/
def pageC6b : Page := ⟨some "T", none, []⟩

/-- The article extracted from `pageC6`: the placeholder title stands in
for the missing primary heading. -/
def artC6 : Article := ⟨"u", "No Title", [⟨"No Title", ["x"]⟩]⟩

/-- C6: a parsed document lacking the primary heading element is NOT
treated like the missing-content-container case: extraction proceeds
with the placeholder title `'No Title'` and returns a non-null
article. -/
theorem c6_counterexample :
    pageC6.firstHeading = none ∧
    (extract_article_content "u" (.ok 200 pageC6)).1 = some artC6 := by decide

/-- C6 (amended): a missing primary heading is tolerated — any article
extracted from such a page carries the placeholder title `'No Title'` —
while a missing content container alone makes extraction return
null. -/
theorem c6_missing_title_tolerated :
    (∀ url status page a, page.firstHeading = none →
      (extract_article_content url (.ok status page)).1 = some a →
      a.title = "No Title") ∧
    (∀ url status page, page.contentDiv = none →
      (extract_article_content url (.ok status page)).1 = none) := by
  constructor
  · intro url status page a hfh h
    cases hcd : page.contentDiv with
    | none => simp [extract_article_content, hcd] at h
    | some children =>
      simp only [extract_article_content, hfh, hcd] at h
      split at h
      · simp at h
      · simp only [Option.some.injEq] at h
        subst h
        rfl
  · intro url status page hcd
    simp [extract_article_content, hcd]

/-- C6 witness: the amended statement at the two concrete pages. -/
theorem c6_witness :
    artC6.title = "No Title" ∧
    (extract_article_content "u" (FetchOutcome.ok 200 pageC6b)).1 = none :=
  ⟨c6_missing_title_tolerated.1 "u" 200 pageC6 artC6 rfl (by decide),
   c6_missing_title_tolerated.2 "u" 200 pageC6b rfl⟩

/-- A concrete one-entry result mapping. -/
def dataC8 : List (String × Article) := [("u", artW)]

/-- C8: `save_results_to_txt` has no `return` statement — it returns
Python's `None`, never the number of articles written, so its return
value differs from the entry count even on a one-entry mapping. -/
theorem c8_counterexample :
    (save_results_to_txt dataC8 "wikipedia_content.txt").returned
      ≠ some dataC8.length := by decide

/-- C8 (amended): the writer returns `None`; it REPORTS the number of
articles written through its final `print`, and that number equals the
number of entries in the input mapping (one write block is emitted per
entry). -/
theorem c8_reports_count (data : List (String × Article))
    (filename : String) :
    (save_results_to_txt data filename).returned = none ∧
    (save_results_to_txt data filename).chunks.length = data.length ∧
    (save_results_to_txt data filename).printed
      = "Saved " ++ toString data.length ++ " articles to " ++ filename := by
  refine ⟨rfl, ?_, rfl⟩
  simp [save_results_to_txt]

/-- Every section the child-loop pushes carries at least one paragraph
entry: a section is pushed (on meeting the next heading, or at the end
of the container) only when its accumulated content is non-empty. -/
theorem build_go_sections_nonempty :
    ∀ (children : List Node) (curHead : String) (curContent : List String)
      (content : List Section),
      (∀ s ∈ content, s.content ≠ []) →
      ∀ s ∈ build_go children curHead curContent content, s.content ≠ [] := by
  intro children
  induction children with
  | nil =>
    intro curHead curContent content hinv s hs
    unfold build_go at hs
    split at hs
    · exact hinv s hs
    · rename_i hne
      rcases List.mem_append.mp hs with h | h
      · exact hinv s h
      · simp only [List.mem_singleton] at h
        subst h
        simpa [List.isEmpty_iff] using hne
  | cons el rest ih =>
    intro curHead curContent content hinv s hs
    have hpush : ∀ (newContent : List Section),
        newContent = (if curContent.isEmpty then content
          else content ++ [⟨curHead, curContent⟩]) →
        ∀ s2 ∈ newContent, s2.content ≠ [] := by
      intro newContent hdef s2 hs2
      subst hdef
      split at hs2
      · exact hinv s2 hs2
      · rename_i hne
        rcases List.mem_append.mp hs2 with h | h
        · exact hinv s2 h
        · simp only [List.mem_singleton] at h
          subst h
          simpa [List.isEmpty_iff] using hne
    cases el with
    | h t =>
      simp only [build_go] at hs
      exact ih t [] _ (hpush _ rfl) s hs
    | p t =>
      simp only [build_go] at hs
      exact ih _ _ _ hinv s hs
    | ul items =>
      simp only [build_go] at hs
      exact ih _ _ _ hinv s hs
    | skip =>
      simp only [build_go] at hs
      exact ih _ _ _ hinv s hs
    | other cs =>
      simp only [build_go] at hs
      exact ih _ _ _ hinv s hs

/-- C9: every non-null extracted article has a non-empty section list,
and every one of its sections has at least one paragraph entry — a
heading immediately followed by another heading contributes no
section. -/
theorem c9_no_empty_sections (url : String) (f : FetchOutcome)
    (a : Article) (h : (extract_article_content url f).1 = some a) :
    a.content ≠ [] ∧ ∀ s ∈ a.content, s.content ≠ [] := by
  cases f with
  | err e => simp [extract_article_content] at h
  | ok status page =>
    cases hcd : page.contentDiv with
    | none => simp [extract_article_content, hcd] at h
    | some children =>
      simp only [extract_article_content, hcd] at h
      split at h
      · simp at h
      · rename_i hne
        simp only [Option.some.injEq] at h
        subst h
        constructor
        · simpa [List.isEmpty_iff] using hne
        · exact build_go_sections_nonempty children _ [] [] (by simp)

/-- C9 witness: the extracted article of the one-page network has a
non-empty section list. -/
theorem c9_witness : artW.content ≠ [] :=
  (c9_no_empty_sections "u" (netW "u") artW (by decide)).1
